import Mathlib

/-!
A formal model of `src/python/fb_ads_library_api_cli.py`, the command-line
front end of the Facebook Ad Library API script repository.  The Python
source is shallowly embedded: Python strings stay `String`, Python lists
become `List`, Python dicts become association lists, functions that can
raise become `Except`-valued, and the truthiness tests the source performs
(`if not x`, `if opts.retry_limit:`) are modelled by explicit emptiness /
zero tests.  Collaborator modules that are imported by the CLI but are not
part of the given source (`fb_ads_library_api_utils`,
`fb_ads_library_api_operators`, `fb_ads_library_api`) are modelled from the
specification; each such definition says so in its doc comment.
-/

deriving instance DecidableEq for Except

namespace AdLibraryCli

/-- The ASCII whitespace characters removed by Python `str.strip()`. -/
def isPySpace (c : Char) : Bool :=
  c = ' ' || c = '\t' || c = '\n' || c = '\r' || c = '\x0b' || c = '\x0c'

/-- Python `s.strip()`: drop leading and trailing whitespace. -/
def pyStrip (s : String) : String :=
  (((s.toList.dropWhile isPySpace).reverse.dropWhile isPySpace).reverse).asString

/-- Python `s.split(",")`: split on every comma, keeping empty pieces
(`"".split(",") = [""]`, `"a,,b".split(",") = ["a","","b"]`). -/
def pySplitComma (s : String) : List String :=
  (s.toList.splitOn ',').map List.asString

/-- Python `s.upper()` on ASCII strings. -/
def pyUpper (s : String) : String :=
  (s.toList.map Char.toUpper).asString

/-- The key sequence of a Python dict built by inserting pairs left to
right: the first occurrence of a key keeps its position, later duplicates
are dropped.  `seen` accumulates the keys already inserted. -/
def pyDictKeys (seen : List String) : List String → List String
  | [] => []
  | x :: xs => if x ∈ seen then pyDictKeys seen xs else x :: pyDictKeys (x :: seen) xs

/-- Modelled from the spec: `get_country_code` lives in
`fb_ads_library_api_utils`, which is not under `src/`.  Per §4.1 it maps a
raw token "through a closed country-name/code reference table", and per the
spec example `"UK, us, uk" → ["GB","US","GB"]` the lookup tolerates
surrounding whitespace and letter case, so it is modelled as a lookup of
the stripped, upper-cased token in a reference table `tbl`, returning the
normalized code or `none` when the token does not resolve. -/
def get_country_code (tbl : List (String × String)) (s : String) : Option String :=
  (tbl.find? (fun p => decide (p.1 = pyUpper (pyStrip s)))).map (fun p => p.2)

/-- Modelled from the spec: a small concrete country reference table used to
instantiate the theorems, containing the codes appearing in the spec's
examples (`UK` and `us` normalize to `GB` and `US`). -/
def specCountryTable : List (String × String) :=
  [("US", "US"), ("GB", "GB"), ("UK", "GB"), ("CA", "CA"), ("DE", "DE")]

/-- Source line 71: `list(filter(lambda x: x.strip(), country_input.split(",")))` —
the comma-split pieces whose stripped form is non-empty, kept **unstripped**. -/
def country_list (country_input : String) : List String :=
  (pySplitComma country_input).filter (fun x => decide (pyStrip x ≠ ""))

/-- Source line 74: `list(map(lambda x: get_country_code(x), country_list))`. -/
def valid_country_codes (tbl : List (String × String)) (country_input : String) :
    List (Option String) :=
  (country_list country_input).map (get_country_code tbl)

/-- Source lines 75-79: the keys of the dict
`{key: value for (key, value) in zip(country_list, valid_country_codes) if value is None}`,
in insertion order (first occurrence of each key). -/
def invalid_country_inputs (tbl : List (String × String)) (country_input : String) :
    List String :=
  pyDictKeys []
    ((((country_list country_input).zip (valid_country_codes tbl country_input)).filter
        (fun p => p.2.isNone)).map (fun p => p.1))

/-- Source lines 68-86, `validate_country_param`: on falsy (empty) input it
returns `""`; otherwise it raises `ArgumentTypeError` (modelled as
`.error`) when no token survives or when some token fails to resolve, and
on success returns the comma-join of the normalized codes. -/
def validate_country_param (tbl : List (String × String)) (country_input : String) :
    Except String String :=
  if country_input = "" then .ok ""
  else if country_list country_input = [] then .error "Country cannot be empty"
  else if invalid_country_inputs tbl country_input ≠ [] then
    .error ("Invalid/unsupported country code: " ++
      String.intercalate "," (invalid_country_inputs tbl country_input))
  else
    .ok (String.intercalate ","
      ((valid_country_codes tbl country_input).map (fun o => o.getD "")))

/-- A Python value returned by `validate_fields_param`: either a string or
the literal `False` the source returns for falsy input (line 91). -/
inductive FieldsResult where
  | str (s : String)
  | boolFalse
deriving DecidableEq

/-- Source lines 92-94:
`list(filter(lambda x: x, map(lambda x: x.strip(), fields_input.split(","))))` —
pieces are stripped **first**, then the empty ones are discarded. -/
def fields_list (fields_input : String) : List String :=
  ((pySplitComma fields_input).map pyStrip).filter (fun x => decide (x ≠ ""))

/-- Source line 97: `list(filter(lambda x: not is_valid_fields(x), fields_list))`. -/
def invalid_fields (valid : String → Bool) (fields_input : String) : List String :=
  (fields_list fields_input).filter (fun x => !(valid x))

/-- Source lines 89-103, `validate_fields_param`, parameterized by the
field-name membership predicate `valid` (the imported `is_valid_fields`):
falsy input returns Python `False`; otherwise it raises (modelled as
`.error`) when no token survives or when some token is invalid, and on
success returns the comma-join of the stripped tokens. -/
def validate_fields_param (valid : String → Bool) (fields_input : String) :
    Except String FieldsResult :=
  if fields_input = "" then .ok .boolFalse
  else if fields_list fields_input = [] then .error "Fields cannot be empty"
  else if invalid_fields valid fields_input = [] then
    .ok (.str (String.intercalate "," (fields_list fields_input)))
  else
    .error ("Unsupported fields: " ++
      String.intercalate "," (invalid_fields valid fields_input))

/-- Modelled from the spec: `is_valid_fields` lives in
`fb_ads_library_api_utils`, which is not under `src/`.  Per §4.1 it checks a
token "against a closed field-name reference set"; the set is modelled by a
small concrete list containing the field names used in the examples. -/
def specValidFields : List String :=
  ["page_id", "page_name", "ad_creation_time", "ad_delivery_start_time", "ad_snapshot_url"]

/-- Modelled from the spec: membership in the closed field-name set. -/
def is_valid_fields (f : String) : Bool := specValidFields.contains f

/-- The outcome of argparse processing one argument through a `type=`
callable (used for `--country` at line 39 and `--fields` at line 31): when
the callable returns, the converted value is stored; when it raises
`ArgumentTypeError`, argparse reports the error message (wrapped in its
usage text) on standard error and exits the process with status 2 — the
standard, documented behaviour of Python `argparse.ArgumentParser.error`. -/
inductive ParseOutcome (α : Type) where
  | parsed (a : α)
  | exitError (message : String) (code : Nat)
deriving DecidableEq

/-- Run an argparse `type=` callable on a raw argument string. -/
def runTypeCallable {α : Type} (f : String → Except String α) (input : String) :
    ParseOutcome α :=
  match f input with
  | .ok a => .parsed a
  | .error m => .exitError m 2

/-- The namespace produced by a successful `parser.parse_args()` (lines
16-65): one attribute per argument `dest`.  `fields` and `country` hold the
already-validated strings (the case where `validate_fields_param` returned
Python `False` is outside this structure).  Optional flags default to
`none` (Python `None`). -/
structure Opts where
  access_token : String
  fields : String
  search_terms : Option String
  country : String
  search_page_ids : Option String
  ad_active_status : Option String
  after_date : Option String
  batch_size : Option Int
  retry_limit : Option Int
  verbose : Bool
  action : String
  args : List String
deriving DecidableEq

/-- Python truthiness of an optional string (`None` and `""` are falsy). -/
def pyTruthyOptStr : Option String → Bool
  | none => false
  | some s => decide (s ≠ "")

/-- Python truthiness of an optional integer (`None` and `0` are falsy). -/
def pyTruthyOptInt : Option Int → Bool
  | none => false
  | some n => decide (n ≠ 0)

/-- Python attribute access `getattr(opts, name)` on the parsed namespace,
reduced to the truthiness of the attribute's value: `some b` when the
parser defines an argument with dest `name` (`b` its truthiness), `none`
when the attribute does not exist, in which case the access raises
`AttributeError`.  The dests are exactly those declared in `get_parser`
(lines 16-65); note the parser declares `search_terms` (line 33), not
`search_term`. -/
def namespaceTruthy (opts : Opts) (name : String) : Option Bool :=
  if name = "access_token" then some (decide (opts.access_token ≠ ""))
  else if name = "fields" then some (decide (opts.fields ≠ ""))
  else if name = "search_terms" then some (pyTruthyOptStr opts.search_terms)
  else if name = "country" then some (decide (opts.country ≠ ""))
  else if name = "search_page_ids" then some (pyTruthyOptStr opts.search_page_ids)
  else if name = "ad_active_status" then some (pyTruthyOptStr opts.ad_active_status)
  else if name = "after_date" then some (pyTruthyOptStr opts.after_date)
  else if name = "batch_size" then some (pyTruthyOptInt opts.batch_size)
  else if name = "retry_limit" then some (pyTruthyOptInt opts.retry_limit)
  else if name = "verbose" then some opts.verbose
  else if name = "action" then some (decide (opts.action ≠ ""))
  else if name = "args" then some (!opts.args.isEmpty)
  else none

/-- Result of the query-selector check at lines 110-112. -/
inductive SelectorCheck where
  | attributeError (name : String)
  | exitWithMessage (message : String) (code : Nat)
  | passed
deriving DecidableEq

/-- Source lines 110-112:
`if not opts.search_term and not opts.search_page_ids: print(...); sys.exit(1)`.
The conjunction is evaluated left to right, so the attribute access
`opts.search_term` happens first; an undefined attribute surfaces as
`AttributeError` (an uncaught exception) before anything is printed. -/
def checkQuerySelector (opts : Opts) : SelectorCheck :=
  match namespaceTruthy opts "search_term" with
  | none => .attributeError "search_term"
  | some st =>
    match namespaceTruthy opts "search_page_ids" with
    | none => .attributeError "search_page_ids"
    | some sp =>
      if !st && !sp then
        .exitWithMessage "At least one must be set: --search-term, --search-page-ids" 1
      else .passed

/-- Modelled from the spec: the traversal collaborator
`FbAdsLibraryTraversal` lives in `fb_ads_library_api`, which is not under
`src/`.  This structure records the request state main builds at lines
120-132: the four constructor arguments, plus the optional attributes the
loop assigns; a `none` field keeps the collaborator's own default. -/
structure ApiRequest where
  access_token : String
  fields : String
  search_term : String
  country : String
  search_page_ids : Option String
  ad_active_status : Option String
  page_limit : Option Int
  retry_limit : Option Int
  after_date : Option String
deriving DecidableEq

/-- Source lines 120-132: construct the per-term traversal request.  The
constructor receives the token, the combined field string, the (already
stripped) term and the country string; each optional attribute is assigned
only when the corresponding option is truthy (`if opts.search_page_ids:`,
`if opts.retry_limit:` and so on). -/
def buildRequest (opts : Opts) (search_term : String) : ApiRequest :=
  { access_token := opts.access_token
    fields := "search_term," ++ opts.fields
    search_term := search_term
    country := opts.country
    search_page_ids :=
      if pyTruthyOptStr opts.search_page_ids then opts.search_page_ids else none
    ad_active_status :=
      if pyTruthyOptStr opts.ad_active_status then opts.ad_active_status else none
    page_limit := if pyTruthyOptInt opts.batch_size then opts.batch_size else none
    retry_limit := if pyTruthyOptInt opts.retry_limit then opts.retry_limit else none
    after_date := if pyTruthyOptStr opts.after_date then opts.after_date else none }

/-- A Python value stored in a record returned by the API. -/
inductive PyVal where
  | int (n : Int)
  | str (s : String)
deriving DecidableEq

/-- An ad record: a Python dict from field name to value, as an ordered
association list. -/
abbrev Record := List (String × PyVal)

/-- Python dict assignment `r[k] = v`: an existing key keeps its position
and gets the new value, a new key is appended at the end. -/
def recSet (r : Record) (k : String) (v : PyVal) : Record :=
  if r.any (fun p => decide (p.1 = k)) then
    r.map (fun p => if p.1 = k then (k, v) else p)
  else r ++ [(k, v)]

/-- Python dict lookup `r[k]`: the value at the first matching key. -/
def recLookup (r : Record) (k : String) : Option PyVal :=
  (r.find? (fun p => decide (p.1 = k))).map (fun p => p.2)

/-- Source line 114:
`opts.search_terms.split(",") if opts.search_terms else [""]` — a falsy
(missing or empty) `--search-terms` yields the single empty term, otherwise
the comma-split pieces, empty pieces included. -/
def searchTermsOf (opts : Opts) : List String :=
  match opts.search_terms with
  | none => [""]
  | some s => if s = "" then [""] else pySplitComma s

/-- The state of the orchestrator loop: the traversal requests constructed
so far (line 120) and the accumulated `all_results` (lines 116, 138). -/
structure RunTrace where
  requests : List ApiRequest
  all_results : List Record
deriving DecidableEq

/-- Source lines 118-138, one iteration of the orchestrator loop for one
raw term: strip the term (line 119), build the traversal request (lines
120-132), drive the batch generator to exhaustion (`f` stands for
`generate_ad_archives` of the collaborator, returning the finite list of
batches for a request), tag every record of every batch with the stripped
term (line 137) and append it to `all_results` (line 138). -/
def runStep (opts : Opts) (f : ApiRequest → List (List Record))
    (tr : RunTrace) (term : String) : RunTrace :=
  let search_term := pyStrip term
  let api := buildRequest opts search_term
  { requests := tr.requests ++ [api]
    all_results := tr.all_results ++
      ((f api).flatten.map (fun ad => recSet ad "search_term" (.str search_term))) }

/-- Source lines 114-138: the whole orchestrator loop over the search
terms, starting from no requests and an empty `all_results`. -/
def runTerms (opts : Opts) (f : ApiRequest → List (List Record)) : RunTrace :=
  (searchTermsOf opts).foldl (runStep opts f) { requests := [], all_results := [] }

/-- The aggregate `all_results` the orchestrator hands to dispatch. -/
def orchestrate (opts : Opts) (f : ApiRequest → List (List Record)) : List Record :=
  (runTerms opts f).all_results

/-- Modelled from the spec: the key set of the fixed action registry
`get_operators()` from `fb_ads_library_api_operators`, which is not under
`src/`; a closed mapping of action names to output handlers with
`save_to_csv` among them. -/
def get_operators_keys : List String :=
  ["count", "save", "save_to_csv", "start_time_trending_analysis"]

/-- The handler invocation dispatch performs: `save_to_csv` additionally
receives the combined field string (line 142-144), every other registered
handler receives the records, the remaining args and the verbosity flag
(lines 146-148). -/
inductive Invocation where
  | csv (records : List Record) (args : List String) (fields : String) (verbose : Bool)
  | handler (name : String) (records : List Record) (args : List String) (verbose : Bool)
deriving DecidableEq

/-- What the dispatch step did: lines printed, the exit code passed to
`sys.exit` (if any), and the handler invocation (if any). -/
structure DispatchOutcome where
  printed : List String
  exitCode : Option Nat
  invoked : Option Invocation
deriving DecidableEq

/-- Source lines 140-151: look the action name up in the registry; invoke
the matching handler (with the field string for `save_to_csv`), or print
`Invalid 'action' value: <name>` and exit with status 1 when the name is
not registered. -/
def dispatch (registry : List String) (action : String) (all_results : List Record)
    (args : List String) (fields : String) (verbose : Bool) : DispatchOutcome :=
  if action ∈ registry then
    if action = "save_to_csv" then
      { printed := [], exitCode := none, invoked := some (.csv all_results args fields verbose) }
    else
      { printed := [], exitCode := none,
        invoked := some (.handler action all_results args verbose) }
  else
    { printed := ["Invalid \x27action\x27 value: " ++ action], exitCode := some 1,
      invoked := none }

/-! ### Concrete instances used by the theorems -/

/-- Parsed options for the spec §8 orchestrator example: search terms
`"shoes,bags"`, no optional overrides. -/
def c7Opts : Opts :=
  { access_token := "token", fields := "page_id", search_terms := some "shoes,bags",
    country := "US", search_page_ids := none, ad_active_status := none,
    after_date := none, batch_size := none, retry_limit := none, verbose := false,
    action := "save_to_csv", args := [] }

/-- Traversal collaborator of the spec §8 example: one batch `[{a:1}]` for
term `shoes`, one batch `[{a:2},{a:3}]` for term `bags`, nothing otherwise. -/
def c7Traversal (req : ApiRequest) : List (List Record) :=
  if req.search_term = "shoes" then [[[("a", .int 1)]]]
  else if req.search_term = "bags" then [[[("a", .int 2)], [("a", .int 3)]]]
  else []

/-- Parsed options supplying `--retry-limit 0` and no other overrides. -/
def c8Opts : Opts :=
  { access_token := "token", fields := "page_id", search_terms := some "shoes",
    country := "US", search_page_ids := none, ad_active_status := none,
    after_date := none, batch_size := none, retry_limit := some 0, verbose := false,
    action := "save_to_csv", args := [] }

/-- Parsed options supplying every optional override with a truthy value. -/
def c8AllOpts : Opts :=
  { access_token := "token", fields := "page_id", search_terms := some "x",
    country := "US", search_page_ids := some "123", ad_active_status := some "ALL",
    after_date := some "2020-01-01", batch_size := some 50, retry_limit := some 3,
    verbose := true, action := "save_to_csv", args := [] }

/-- Parsed options whose `--search-terms` value `"a,,b"` has a consecutive
comma (an empty middle token). -/
def c10Opts : Opts :=
  { access_token := "token", fields := "page_id", search_terms := some "a,,b",
    country := "US", search_page_ids := none, ad_active_status := none,
    after_date := none, batch_size := none, retry_limit := none, verbose := false,
    action := "save_to_csv", args := [] }

/-- A traversal collaborator returning the single batch `[{p:9}]` for every
request, used to observe how many traversals run and their tagging. -/
def c10Traversal : ApiRequest → List (List Record) :=
  fun _ => [[[("p", .int 9)]]]

/-! ### Helper lemmas -/

theorem pyDictKeys_sublist (l : List String) :
    ∀ seen, (pyDictKeys seen l).Sublist l := by
  induction l with
  | nil => intro seen; simp [pyDictKeys]
  | cons x xs ih =>
    intro seen
    by_cases h : x ∈ seen
    · simp only [pyDictKeys, if_pos h]
      exact (ih seen).cons x
    · simp only [pyDictKeys, if_neg h]
      exact (ih (x :: seen)).cons₂ x

theorem pyDictKeys_mem (t : String) (l : List String) :
    ∀ seen, t ∈ l → t ∉ seen → t ∈ pyDictKeys seen l := by
  induction l with
  | nil => intro seen h _; cases h
  | cons x xs ih =>
    intro seen hmem hnot
    by_cases hx : x ∈ seen
    · simp only [pyDictKeys, if_pos hx]
      rcases List.mem_cons.mp hmem with rfl | h
      · exact absurd hx hnot
      · exact ih seen h hnot
    · simp only [pyDictKeys, if_neg hx]
      rcases List.mem_cons.mp hmem with rfl | h
      · exact List.mem_cons_self _ _
      · by_cases htx : t = x
        · subst htx; exact List.mem_cons_self _ _
        · refine List.mem_cons_of_mem _ (ih (x :: seen) h ?_)
          intro hc
          rcases List.mem_cons.mp hc with rfl | hc
          · exact htx rfl
          · exact hnot hc

theorem zip_with_map_self {α β : Type} (f : α → β) (l : List α) :
    l.zip (l.map f) = l.map (fun a => (a, f a)) := by
  have h := List.zip_map' id f l
  simpa using h

theorem invalid_country_inputs_eq (tbl : List (String × String)) (input : String) :
    invalid_country_inputs tbl input =
      pyDictKeys []
        ((country_list input).filter (fun t => (get_country_code tbl t).isNone)) := by
  simp [invalid_country_inputs, valid_country_codes, zip_with_map_self,
    List.filter_map, Function.comp_def]

theorem runTerms_foldl (opts : Opts) (f : ApiRequest → List (List Record)) :
    ∀ (l : List String) (tr : RunTrace),
      l.foldl (runStep opts f) tr =
        { requests := tr.requests ++ l.map (fun term => buildRequest opts (pyStrip term)),
          all_results := tr.all_results ++
            (l.map (fun term =>
              (f (buildRequest opts (pyStrip term))).flatten.map
                (fun ad => recSet ad "search_term" (.str (pyStrip term))))).flatten } := by
  intro l
  induction l with
  | nil => intro tr; simp
  | cons x xs ih =>
    intro tr
    rw [List.foldl_cons, ih]
    simp [runStep, List.append_assoc]

theorem find?_map_replace (k : String) (v : PyVal) :
    ∀ t : List (String × PyVal), (t.any fun p => decide (p.1 = k)) = true →
      (t.map (fun p => if p.1 = k then (k, v) else p)).find? (fun p => decide (p.1 = k)) =
        some (k, v) := by
  intro t
  induction t with
  | nil => intro h; cases h
  | cons a tl ih =>
    intro h
    by_cases hak : a.1 = k
    · simp only [List.map_cons, if_pos hak]
      exact List.find?_cons_of_pos _ (by simp)
    · simp only [List.map_cons, if_neg hak]
      rw [List.find?_cons_of_neg _ (by simpa using hak)]
      apply ih
      simpa [List.any_cons, hak] using h

theorem find?_append_key (k : String) (v : PyVal) :
    ∀ t : List (String × PyVal), (t.any fun p => decide (p.1 = k)) = false →
      (t ++ [(k, v)]).find? (fun p => decide (p.1 = k)) = some (k, v) := by
  intro t
  induction t with
  | nil => simp [List.find?_cons_of_pos]
  | cons a tl ih =>
    intro h
    have hak : ¬ a.1 = k := by
      intro hc
      simp [List.any_cons, hc] at h
    rw [List.cons_append, List.find?_cons_of_neg _ (by simpa using hak)]
    apply ih
    simpa [List.any_cons, hak] using h

theorem recLookup_recSet (k : String) (v : PyVal) (r : Record) :
    recLookup (recSet r k v) k = some v := by
  by_cases h : (r.any fun p => decide (p.1 = k)) = true
  · simp only [recSet, h, if_true, recLookup]
    rw [find?_map_replace k v r h]
    rfl
  · have hb : (r.any fun p => decide (p.1 = k)) = false := Bool.eq_false_iff.mpr h
    simp only [recSet, hb, recLookup]
    rw [if_neg (by simp)]
    rw [find?_append_key k v r hb]
    rfl

/-! ### Claim theorems -/

/-- C1: the claim says an invocation without `--search-terms` and without
`--search-page-ids` gets the missing-query-selector message and a clean
exit with status 1.  In the code, the check at line 110 reads
`opts.search_term`, an attribute the parser never defines (the dest is
`search_terms`), so every invocation — in particular every one without a
query selector — raises `AttributeError` at line 110 before the message
can be printed; the check never runs. -/
theorem c1_selector_check_raises_attribute_error (opts : Opts) :
    checkQuerySelector opts = .attributeError "search_term" := by
  rfl

/-- C2 counterexample: for the invalid country argument `"ZZ"` the process
reports the descriptive validator message but exits with argparse's status
2, not status 1 as the claim states. -/
theorem c2_invalid_country_exits_with_two :
    runTypeCallable (validate_country_param specCountryTable) "ZZ" =
      .exitError "Invalid/unsupported country code: ZZ" 2 ∧ (2 : Nat) ≠ 1 := by
  decide

/-- C2 amended: for every `--country` or `--fields` argument that fails
vocabulary validation during argument parsing, the process reports the
descriptive validator message and exits with a non-zero status, namely
argparse's status 2. -/
theorem c2_validation_error_reports_and_exits_nonzero (tbl : List (String × String))
    (valid : String → Bool) (cinput finput mc mf : String) :
    (validate_country_param tbl cinput = .error mc →
      runTypeCallable (validate_country_param tbl) cinput = .exitError mc 2) ∧
    (validate_fields_param valid finput = .error mf →
      runTypeCallable (validate_fields_param valid) finput = .exitError mf 2) := by
  constructor <;> intro h <;> simp [runTypeCallable, h]

/-- C2 witness: concrete invalid country and fields arguments, with the
amended theorem applied to both. -/
theorem c2_validation_error_witness :
    validate_country_param specCountryTable "ZZ" =
      .error "Invalid/unsupported country code: ZZ" ∧
    runTypeCallable (validate_country_param specCountryTable) "ZZ" =
      .exitError "Invalid/unsupported country code: ZZ" 2 ∧
    validate_fields_param is_valid_fields "zz" = .error "Unsupported fields: zz" ∧
    runTypeCallable (validate_fields_param is_valid_fields) "zz" =
      .exitError "Unsupported fields: zz" 2 := by
  refine ⟨by decide, ?_, by decide, ?_⟩
  · exact (c2_validation_error_reports_and_exits_nonzero specCountryTable is_valid_fields
      "ZZ" "zz" "Invalid/unsupported country code: ZZ" "Unsupported fields: zz").1 (by decide)
  · exact (c2_validation_error_reports_and_exits_nonzero specCountryTable is_valid_fields
      "ZZ" "zz" "Invalid/unsupported country code: ZZ" "Unsupported fields: zz").2 (by decide)

/-- C3 counterexample: on the empty string the fields validator does not
fail with the EmptyInput error — line 90-91 returns the Python value
`False`, a successful return as far as parsing is concerned. -/
theorem c3_empty_string_fields_returns_false :
    validate_fields_param is_valid_fields "" = .ok .boolFalse ∧
      validate_fields_param is_valid_fields "" ≠ .error "Fields cannot be empty" := by
  decide

/-- C3 amended: for every **non-empty** fields input whose comma-split,
trimmed token list is empty — in particular `" , ,"` — the fields
validator fails with the EmptyInput error (`"Fields cannot be empty"`);
the empty string `""` instead returns the Python value `False` without
raising. -/
theorem c3_blank_fields_fail_empty_input (valid : String → Bool) (input : String)
    (h0 : input ≠ "") (h1 : fields_list input = []) :
    validate_fields_param valid input = .error "Fields cannot be empty" := by
  simp [validate_fields_param, h0, h1]

/-- C3 witness: the amended theorem applied to the spec's example `" , ,"`. -/
theorem c3_blank_fields_witness :
    (" , ," ≠ "") ∧ fields_list " , ," = [] ∧
      validate_fields_param is_valid_fields " , ," = .error "Fields cannot be empty" :=
  ⟨by decide, by decide,
    c3_blank_fields_fail_empty_input is_valid_fields " , ," (by decide) (by decide)⟩

/-- C4 counterexample: on the empty string the country validator does not
fail with the EmptyInput error — line 69-70 returns `""`, a successful
return as far as parsing is concerned. -/
theorem c4_empty_string_country_returns_empty :
    validate_country_param specCountryTable "" = .ok "" ∧
      validate_country_param specCountryTable "" ≠ .error "Country cannot be empty" := by
  decide

/-- C4 amended: for every **non-empty** country input whose comma-split
token list, after trimming and discarding empty tokens, is empty, the
country validator fails with the EmptyInput error
(`"Country cannot be empty"`); the empty string `""` instead returns `""`
without raising. -/
theorem c4_blank_country_fails_empty_input (tbl : List (String × String))
    (input : String) (h0 : input ≠ "") (h1 : country_list input = []) :
    validate_country_param tbl input = .error "Country cannot be empty" := by
  simp [validate_country_param, h0, h1]

/-- C4 witness: the amended theorem applied to the all-blank input `" , ,"`. -/
theorem c4_blank_country_witness :
    (" , ," ≠ "") ∧ country_list " , ," = [] ∧
      validate_country_param specCountryTable " , ," = .error "Country cannot be empty" :=
  ⟨by decide, by decide,
    c4_blank_country_fails_empty_input specCountryTable " , ," (by decide) (by decide)⟩

/-- C9: for every action name not in the registry, dispatch prints the
descriptive message naming the action, exits with status 1, and invokes no
handler (lines 140-151). -/
theorem c9_unknown_action_clean_failure (registry : List String) (action : String)
    (all_results : List Record) (args : List String) (fields : String) (verbose : Bool)
    (h : action ∉ registry) :
    dispatch registry action all_results args fields verbose =
      { printed := ["Invalid \x27action\x27 value: " ++ action], exitCode := some 1,
        invoked := none } := by
  simp [dispatch, h]

/-- C9 witness: dispatching the unregistered action `"frobnicate"`. -/
theorem c9_unknown_action_witness :
    "frobnicate" ∉ get_operators_keys ∧
      dispatch get_operators_keys "frobnicate" [] [] "search_term,page_id" false =
        { printed := ["Invalid \x27action\x27 value: frobnicate"], exitCode := some 1,
          invoked := none } := by
  refine ⟨by decide, ?_⟩
  rw [c9_unknown_action_clean_failure get_operators_keys "frobnicate" [] []
    "search_term,page_id" false (by decide)]
  decide

/-- C5: for every country input whose kept tokens all resolve in the
reference table, the validator succeeds and returns the comma-join of the
normalized codes — exactly one code per kept token, in input order, with
duplicates preserved (each token is stripped and case-normalized before
the table lookup, inside `get_country_code`). -/
theorem c5_country_success_order_count (tbl : List (String × String)) (input : String)
    (h1 : country_list input ≠ [])
    (h2 : ∀ t ∈ country_list input, get_country_code tbl t ≠ none) :
    validate_country_param tbl input =
      .ok (String.intercalate ","
        ((country_list input).map (fun t => (get_country_code tbl t).getD ""))) ∧
    ((country_list input).map (fun t => (get_country_code tbl t).getD "")).length =
      (country_list input).length := by
  have hne : input ≠ "" := by
    intro he
    apply h1
    rw [he]
    rfl
  have hinv : invalid_country_inputs tbl input = [] := by
    rw [invalid_country_inputs_eq]
    have hf : (country_list input).filter (fun t => (get_country_code tbl t).isNone) = [] := by
      rw [List.filter_eq_nil_iff]
      intro a ha
      simp only [Option.isNone_iff_eq_none]
      exact fun hc => h2 a ha hc
    rw [hf]
    rfl
  constructor
  · simp only [validate_country_param, if_neg hne, if_neg h1, hinv]
    rw [if_neg (by simp)]
    simp [valid_country_codes, List.map_map, Function.comp_def]
  · simp

/-- C5 witness: the spec example `"UK, us, uk"` yields the normalized codes
`GB,US,GB` — three codes for three tokens, in input order, duplicates
preserved. -/
theorem c5_country_success_witness :
    country_list "UK, us, uk" ≠ [] ∧
    (∀ t ∈ country_list "UK, us, uk", get_country_code specCountryTable t ≠ none) ∧
    validate_country_param specCountryTable "UK, us, uk" = .ok "GB,US,GB" ∧
    (country_list "UK, us, uk").map
        (fun t => (get_country_code specCountryTable t).getD "") = ["GB", "US", "GB"] := by
  refine ⟨by decide, by decide, ?_, by decide⟩
  rw [(c5_country_success_order_count specCountryTable "UK, us, uk"
    (by decide) (by decide)).1]
  decide

/-- C6: for every non-empty token list containing at least one offending
token, each validator fails with a single error carrying the complete
offending-token list: every token that fails to resolve appears in it, and
the list is a sublist of the token list, hence in original input order. -/
theorem c6_all_offending_tokens_reported (tbl : List (String × String))
    (valid : String → Bool) (cinput finput : String)
    (hc1 : country_list cinput ≠ [])
    (hc2 : ∃ t ∈ country_list cinput, get_country_code tbl t = none)
    (hf1 : fields_list finput ≠ [])
    (hf2 : ∃ t ∈ fields_list finput, valid t = false) :
    (validate_country_param tbl cinput =
        .error ("Invalid/unsupported country code: " ++
          String.intercalate "," (invalid_country_inputs tbl cinput)) ∧
      (∀ t ∈ country_list cinput, get_country_code tbl t = none →
        t ∈ invalid_country_inputs tbl cinput) ∧
      (invalid_country_inputs tbl cinput).Sublist (country_list cinput)) ∧
    (validate_fields_param valid finput =
        .error ("Unsupported fields: " ++
          String.intercalate "," (invalid_fields valid finput)) ∧
      (∀ t ∈ fields_list finput, valid t = false → t ∈ invalid_fields valid finput) ∧
      (invalid_fields valid finput).Sublist (fields_list finput)) := by
  have hcne : cinput ≠ "" := by
    intro he
    apply hc1
    rw [he]
    rfl
  have hfne : finput ≠ "" := by
    intro he
    apply hf1
    rw [he]
    rfl
  have hcmem : ∀ t ∈ country_list cinput, get_country_code tbl t = none →
      t ∈ invalid_country_inputs tbl cinput := by
    intro t ht hnone
    rw [invalid_country_inputs_eq]
    refine pyDictKeys_mem t _ [] ?_ (by simp)
    exact List.mem_filter.mpr ⟨ht, by simp [hnone]⟩
  have hfmem : ∀ t ∈ fields_list finput, valid t = false →
      t ∈ invalid_fields valid finput := by
    intro t ht hv
    exact List.mem_filter.mpr ⟨ht, by simp [hv]⟩
  have hcinv : invalid_country_inputs tbl cinput ≠ [] := by
    obtain ⟨t, ht, hnone⟩ := hc2
    exact List.ne_nil_of_mem (hcmem t ht hnone)
  have hfinv : invalid_fields valid finput ≠ [] := by
    obtain ⟨t, ht, hv⟩ := hf2
    exact List.ne_nil_of_mem (hfmem t ht hv)
  refine ⟨⟨?_, hcmem, ?_⟩, ⟨?_, hfmem, ?_⟩⟩
  · simp only [validate_country_param, if_neg hcne, if_neg hc1]
    rw [if_pos hcinv]
  · rw [invalid_country_inputs_eq]
    exact (pyDictKeys_sublist _ []).trans (List.filter_sublist _)
  · simp only [validate_fields_param, if_neg hfne, if_neg hf1]
    rw [if_neg hfinv]
  · exact List.filter_sublist _

/-- C6 witness: the spec example `"US,ZZ,YY"` (and a fields analogue):
the single error names both `ZZ` and `YY`, in input order. -/
theorem c6_all_offending_tokens_witness :
    (∃ t ∈ country_list "US,ZZ,YY", get_country_code specCountryTable t = none) ∧
    validate_country_param specCountryTable "US,ZZ,YY" =
      .error "Invalid/unsupported country code: ZZ,YY" ∧
    validate_fields_param is_valid_fields "page_id,zz,yy" =
      .error "Unsupported fields: zz,yy" ∧
    "ZZ" ∈ invalid_country_inputs specCountryTable "US,ZZ,YY" ∧
    "YY" ∈ invalid_country_inputs specCountryTable "US,ZZ,YY" := by
  have h := c6_all_offending_tokens_reported specCountryTable is_valid_fields
    "US,ZZ,YY" "page_id,zz,yy" (by decide) (by decide) (by decide) (by decide)
  refine ⟨by decide, ?_, ?_, by decide, by decide⟩
  · rw [h.1.1]
    decide
  · rw [h.2.1]
    decide

/-- C7: the orchestrator aggregates, for each search term in submission
order, the flattened batches of that term's traversal, each record tagged
(via dict assignment) with `search_term` equal to the stripped originating
term; looking the tag up yields that term; and on the spec §8 example
(`"shoes,bags"`, batches `[{a:1}]` and `[{a:2},{a:3}]`) the aggregate is
exactly the three tagged records in (term, batch, within-batch) order. -/
theorem c7_orchestrator_tagging_and_order :
    (∀ (opts : Opts) (f : ApiRequest → List (List Record)),
      orchestrate opts f =
        ((searchTermsOf opts).map (fun term =>
          (f (buildRequest opts (pyStrip term))).flatten.map
            (fun ad => recSet ad "search_term" (.str (pyStrip term))))).flatten) ∧
    (∀ (t : String) (r : Record),
      recLookup (recSet r "search_term" (.str t)) "search_term" = some (.str t)) ∧
    orchestrate c7Opts c7Traversal =
      [[("a", .int 1), ("search_term", .str "shoes")],
       [("a", .int 2), ("search_term", .str "bags")],
       [("a", .int 3), ("search_term", .str "bags")]] := by
  refine ⟨?_, ?_, ?_⟩
  · intro opts f
    simp only [orchestrate, runTerms]
    rw [runTerms_foldl]
    simp
  · intro t r
    exact recLookup_recSet _ _ _
  · decide

/-- C8 counterexample: with `--retry-limit 0` supplied, the constructed
traversal request does not carry the retry-limit override — line 129
guards the assignment with Python truthiness, and `0` is falsy. -/
theorem c8_retry_zero_not_forwarded :
    c8Opts.retry_limit = some 0 ∧ (buildRequest c8Opts "shoes").retry_limit = none := by
  decide

/-- C8 amended: the traversal request built for each term carries every
optional override whose supplied value is truthy — any non-empty page-id,
ad-active-status and after-date strings, any non-zero batch-size and
retry-limit — while a supplied retry-limit of 0 is dropped (the request
keeps the collaborator's default), and the request is scoped to the term. -/
theorem c8_truthy_overrides_forwarded (opts : Opts) (term : String) :
    (∀ s, opts.search_page_ids = some s → s ≠ "" →
      (buildRequest opts term).search_page_ids = some s) ∧
    (∀ s, opts.ad_active_status = some s → s ≠ "" →
      (buildRequest opts term).ad_active_status = some s) ∧
    (∀ s, opts.after_date = some s → s ≠ "" →
      (buildRequest opts term).after_date = some s) ∧
    (∀ n, opts.batch_size = some n → n ≠ 0 →
      (buildRequest opts term).page_limit = some n) ∧
    (∀ n, opts.retry_limit = some n → n ≠ 0 →
      (buildRequest opts term).retry_limit = some n) ∧
    (opts.retry_limit = some 0 → (buildRequest opts term).retry_limit = none) ∧
    (buildRequest opts term).search_term = term := by
  refine ⟨?_, ?_, ?_, ?_, ?_, ?_, rfl⟩
  · intro s hs hnz
    simp [buildRequest, hs, pyTruthyOptStr, hnz]
  · intro s hs hnz
    simp [buildRequest, hs, pyTruthyOptStr, hnz]
  · intro s hs hnz
    simp [buildRequest, hs, pyTruthyOptStr, hnz]
  · intro n hn hnz
    simp [buildRequest, hn, pyTruthyOptInt, hnz]
  · intro n hn hnz
    simp [buildRequest, hn, pyTruthyOptInt, hnz]
  · intro h0
    simp [buildRequest, h0, pyTruthyOptInt]

/-- C8 witness: with every override supplied truthy the built request
carries them all; with `--retry-limit 0` the request keeps the default. -/
theorem c8_truthy_overrides_witness :
    c8AllOpts.search_page_ids = some "123" ∧
    (buildRequest c8AllOpts "x").search_page_ids = some "123" ∧
    (buildRequest c8AllOpts "x").ad_active_status = some "ALL" ∧
    (buildRequest c8AllOpts "x").after_date = some "2020-01-01" ∧
    (buildRequest c8AllOpts "x").page_limit = some 50 ∧
    (buildRequest c8AllOpts "x").retry_limit = some 3 ∧
    (buildRequest c8Opts "x").retry_limit = none := by
  have h := c8_truthy_overrides_forwarded c8AllOpts "x"
  exact ⟨rfl, h.1 "123" rfl (by decide), h.2.1 "ALL" rfl (by decide),
    h.2.2.1 "2020-01-01" rfl (by decide), h.2.2.2.1 50 rfl (by decide),
    h.2.2.2.2.1 3 rfl (by decide),
    (c8_truthy_overrides_forwarded c8Opts "x").2.2.2.2.2.1 rfl⟩

/-- C10: for every truthy `--search-terms` value, the orchestrator runs one
traversal per comma-separated position — empty tokens are not discarded:
the constructed requests carry exactly the stripped tokens (so an empty
token yields a request with the empty search term, an unfiltered query),
and that traversal's records are tagged with `search_term` equal to its
(empty) stripped token. -/
theorem c10_empty_terms_not_discarded (opts : Opts)
    (f : ApiRequest → List (List Record)) (s : String)
    (h1 : opts.search_terms = some s) (h2 : s ≠ "") :
    (runTerms opts f).requests.map (fun r => r.search_term) =
      (pySplitComma s).map pyStrip ∧
    (runTerms opts f).requests.length = (pySplitComma s).length ∧
    orchestrate opts f =
      ((pySplitComma s).map (fun term =>
        (f (buildRequest opts (pyStrip term))).flatten.map
          (fun ad => recSet ad "search_term" (.str (pyStrip term))))).flatten := by
  have hterms : searchTermsOf opts = pySplitComma s := by
    simp [searchTermsOf, h1, h2]
  refine ⟨?_, ?_, ?_⟩
  · simp only [runTerms]
    rw [runTerms_foldl, hterms]
    simp [List.map_map, Function.comp_def, buildRequest]
  · simp only [runTerms]
    rw [runTerms_foldl, hterms]
    simp
  · simp only [orchestrate, runTerms]
    rw [runTerms_foldl, hterms]
    simp

/-- C10 witness: `--search-terms "a,,b"` produces three traversal requests
with search terms `a`, `` and `b`, and with a collaborator returning one
record per request the middle record is tagged with the empty term. -/
theorem c10_empty_terms_witness :
    c10Opts.search_terms = some "a,,b" ∧ ("a,,b" ≠ "") ∧
    (runTerms c10Opts c10Traversal).requests.map (fun r => r.search_term) =
      ["a", "", "b"] ∧
    orchestrate c10Opts c10Traversal =
      [[("p", .int 9), ("search_term", .str "a")],
       [("p", .int 9), ("search_term", .str "")],
       [("p", .int 9), ("search_term", .str "b")]] := by
  have h := c10_empty_terms_not_discarded c10Opts c10Traversal "a,,b" rfl (by decide)
  refine ⟨rfl, by decide, ?_, ?_⟩
  · rw [h.1]
    decide
  · rw [h.2.2]
    decide

end AdLibraryCli
